import Mathlib

/-!
Verification of the mobdev device-control dispatcher.

Shallow embedding of the C sources of the repository:
* the USB phone-like device classifier (mobdev_detect_cb, mobdev_detect_phone),
* the argument record and its trust-boundary marshaling,
* the tethering interface-state controller (mobdev_tethering),
* the notification state machine (mobdev_notifications of the
  state-machine revision, namespace Ctrl),
* the external helper bridge callers (mobdev_file_transfer,
  mobdev_call_control, mobdev_media_control),
* the syscall dispatcher (sys_mobdev_control of the feature-complete
  six-command revision).

Machine integers are modelled as Nat (unsigned int) and Int (int / long),
C byte buffers as List Nat, and the untrusted caller pointer as an
explicit three-way value (null, readable record, inaccessible memory).
-/

/- ------------------------------------------------------------------
   USB descriptor model and the phone-like classifier
   ------------------------------------------------------------------ -/

/-- One alternate-setting descriptor: the class/subclass/protocol triple
of struct usb_interface_descriptor. -/
structure usb_interface_descriptor where
  bInterfaceClassCode : Nat
  bInterfaceSubClassCode : Nat
  bInterfaceProtocol : Nat
deriving DecidableEq

/-- struct usb_interface: the list of alternate settings
(altsetting array, num_altsetting elements). -/
structure usb_interface where
  altsetting : List usb_interface_descriptor
deriving DecidableEq

/-- struct usb_host_config: the interfaces of one configuration
(interface array, bNumInterfaces elements). -/
structure usb_host_config where
  interface : List usb_interface
deriving DecidableEq

/-- struct usb_device: vendor/product ids and the configuration tree
(config array, bNumConfigurations elements). -/
structure usb_device where
  idVendor : Nat
  idProduct : Nat
  config : List usb_host_config
deriving DecidableEq

def USB_CLASS_STILL_IMAGE : Nat := 0x06

def USB_CLASS_WIRELESS_CONTROLLER : Nat := 0xE0

def USB_CLASS_VENDOR_SPEC : Nat := 0xFF

/-- The switch of mobdev_detect_cb: the class code matches the
phone-like heuristic allow-list. -/
def classMatches (c : Nat) : Bool :=
  c = USB_CLASS_STILL_IMAGE || c = USB_CLASS_WIRELESS_CONTROLLER ||
    c = USB_CLASS_VENDOR_SPEC

/-- mobdev_detect_cb: walk every configuration, interface and alternate
setting of one device; return 1 at the first phone-like interface class,
else 0.  The nested early-return loops are the short-circuit List.any. -/
def mobdev_detect_cb (udev : usb_device) : Int :=
  if udev.config.any (fun cfg =>
      cfg.interface.any (fun intf =>
        intf.altsetting.any (fun d => classMatches d.bInterfaceClassCode)))
  then 1 else 0

/-- usb_for_each_dev: iterate the attached devices, stopping at the
first device for which the callback returns non-zero and returning that
value; 0 when no callback fired. -/
def usb_for_each_dev (cb : usb_device → Int) : List usb_device → Int
  | [] => 0
  | u :: rest => if cb u ≠ 0 then cb u else usb_for_each_dev cb rest

/-- mobdev_detect_phone: run the classifier callback over every attached
device; 1 means a phone-like device was found, 0 means none. -/
def mobdev_detect_phone (devs : List usb_device) : Int :=
  usb_for_each_dev mobdev_detect_cb devs

/-- The phone-like predicate of the spec: some configuration, interface
and alternate setting of the device carries a matching class code. -/
def phoneLike (u : usb_device) : Prop :=
  ∃ cfg ∈ u.config, ∃ intf ∈ cfg.interface, ∃ alt ∈ intf.altsetting,
    alt.bInterfaceClassCode = USB_CLASS_STILL_IMAGE ∨
    alt.bInterfaceClassCode = USB_CLASS_WIRELESS_CONTROLLER ∨
    alt.bInterfaceClassCode = USB_CLASS_VENDOR_SPEC

theorem classMatches_iff (c : Nat) :
    classMatches c = true ↔
      c = USB_CLASS_STILL_IMAGE ∨ c = USB_CLASS_WIRELESS_CONTROLLER ∨
        c = USB_CLASS_VENDOR_SPEC := by
  simp [classMatches, or_assoc]

theorem mobdev_detect_cb_spec (u : usb_device) :
    (mobdev_detect_cb u = 1 ↔ phoneLike u) ∧
      (mobdev_detect_cb u = 0 ↔ ¬ phoneLike u) := by
  have hiff : (u.config.any (fun cfg =>
        cfg.interface.any (fun intf =>
          intf.altsetting.any (fun d => classMatches d.bInterfaceClassCode))) = true)
      ↔ phoneLike u := by
    simp only [List.any_eq_true, classMatches_iff, phoneLike]
  unfold mobdev_detect_cb
  by_cases h : (u.config.any (fun cfg =>
      cfg.interface.any (fun intf =>
        intf.altsetting.any (fun d => classMatches d.bInterfaceClassCode)))) = true
  · rw [if_pos h]
    exact ⟨iff_of_true rfl (hiff.mp h),
      iff_of_false (by norm_num) (not_not_intro (hiff.mp h))⟩
  · rw [if_neg h]
    exact ⟨iff_of_false (by norm_num) (fun hp => h (hiff.mpr hp)),
      iff_of_true rfl (fun hp => h (hiff.mpr hp))⟩

theorem mobdev_detect_phone_eq_one (devs : List usb_device) :
    mobdev_detect_phone devs = 1 ↔ ∃ u ∈ devs, phoneLike u := by
  induction devs with
  | nil =>
      simp [mobdev_detect_phone, usb_for_each_dev]
  | cons u rest ih =>
      unfold mobdev_detect_phone usb_for_each_dev
      by_cases h : phoneLike u
      · have h1 : mobdev_detect_cb u = 1 := (mobdev_detect_cb_spec u).1.mpr h
        rw [if_pos (by rw [h1]; norm_num)]
        exact iff_of_true h1 ⟨u, by simp, h⟩
      · have h0 : mobdev_detect_cb u = 0 := (mobdev_detect_cb_spec u).2.mpr h
        rw [if_neg (by rw [h0]; simp)]
        rw [mobdev_detect_phone] at ih
        rw [ih]
        constructor
        · intro ⟨v, hv, hp⟩; exact ⟨v, List.mem_cons_of_mem _ hv, hp⟩
        · intro ⟨v, hv, hp⟩
          rcases List.mem_cons.mp hv with hveq | hvm
          · exact absurd (hveq ▸ hp) h
          · exact ⟨v, hvm, hp⟩

theorem mobdev_detect_phone_eq_zero (devs : List usb_device) :
    mobdev_detect_phone devs = 0 ↔ ¬ ∃ u ∈ devs, phoneLike u := by
  induction devs with
  | nil =>
      simp [mobdev_detect_phone, usb_for_each_dev]
  | cons u rest ih =>
      unfold mobdev_detect_phone usb_for_each_dev
      by_cases h : phoneLike u
      · have h1 : mobdev_detect_cb u = 1 := (mobdev_detect_cb_spec u).1.mpr h
        rw [if_pos (by rw [h1]; norm_num)]
        exact iff_of_false (by rw [h1]; norm_num)
          (fun hn => hn ⟨u, by simp, h⟩)
      · have h0 : mobdev_detect_cb u = 0 := (mobdev_detect_cb_spec u).2.mpr h
        rw [if_neg (by rw [h0]; simp)]
        rw [mobdev_detect_phone] at ih
        rw [ih]
        constructor
        · intro hn ⟨v, hv, hp⟩
          rcases List.mem_cons.mp hv with hveq | hvm
          · exact h (hveq ▸ hp)
          · exact hn ⟨v, hvm, hp⟩
        · intro hn ⟨v, hv, hp⟩
          exact hn ⟨v, List.mem_cons_of_mem _ hv, hp⟩

/-- C1. DetectPhoneLikeDevice returns 1 exactly when some attached USB
device exposes, in some configuration, interface and alternate setting,
an interface class in the allow-list (0x06 still-image, 0xE0
wireless-controller, 0xFF vendor-specific); the first matching device
short-circuits the scan and yields 1; with zero attached devices or only
non-matching classes it yields 0. -/
theorem detect_phone_like_device_spec (devs : List usb_device) :
    (mobdev_detect_phone devs = 1 ↔ ∃ u ∈ devs, phoneLike u) ∧
    (mobdev_detect_phone devs = 0 ↔ ¬ ∃ u ∈ devs, phoneLike u) ∧
    (∀ u rest, mobdev_detect_cb u = 1 →
      mobdev_detect_phone (u :: rest) = 1) ∧
    mobdev_detect_phone ([] : List usb_device) = 0 := by
  refine ⟨mobdev_detect_phone_eq_one devs, mobdev_detect_phone_eq_zero devs,
    ?_, rfl⟩
  intro u rest h1
  unfold mobdev_detect_phone usb_for_each_dev
  rw [if_pos (by rw [h1]; norm_num)]
  exact h1

/-- A synthetic device exposing a still-image (0x06) interface. -/
def phone_dev : usb_device :=
  { idVendor := 0x18d1, idProduct := 0x4ee1,
    config := [{ interface := [{ altsetting :=
      [{ bInterfaceClassCode := 0x06, bInterfaceSubClassCode := 1,
         bInterfaceProtocol := 1 }] }] }] }

/-- Witness for C1: the short-circuit clause applied to a concrete
still-image device yields detection. -/
theorem detect_phone_like_device_witness :
    mobdev_detect_phone [phone_dev] = 1 :=
  (detect_phone_like_device_spec []).2.2.1 phone_dev [] (by decide)

/- ------------------------------------------------------------------
   Byte buffers, C strings and the argument record
   ------------------------------------------------------------------ -/

/-- ASCII bytes of a C string literal. -/
def lit (s : String) : List Nat := s.toList.map Char.toNat

/-- Read a char buffer as a C string: the bytes before the first NUL
when one exists inside the buffer, none when the read would run past
the end of the buffer (an out-of-capacity read). -/
def cstringRead : List Nat → Option (List Nat)
  | [] => none
  | b :: rest => if b = 0 then some [] else (cstringRead rest).map (b :: ·)

/-- The contents a NUL-terminated buffer holds as a C string. -/
def cstrContents (buf : List Nat) : List Nat :=
  buf.takeWhile (fun b => b ≠ 0)

/-- strncpy(dst, src, n) viewed as the n bytes written into dst: the
bytes of src up to (excluding) its first NUL, zero-padded to n; when
src holds no NUL in its first n bytes, n unterminated bytes. -/
def strncpy (src : List Nat) : Nat → List Nat
  | 0 => []
  | n + 1 =>
      match src with
      | [] => List.replicate (n + 1) 0
      | b :: rest =>
          if b = 0 then List.replicate (n + 1) 0 else b :: strncpy rest n

/-- struct mobdev_args of the six-command revision: enable flag, a
128-byte path buffer, a 32-byte interface-name buffer, and the
call/media action flag.  The buffers are raw bytes exactly as copied
across the trust boundary. -/
structure mobdev_args where
  enable : Int
  path : List Nat
  ifname : List Nat
  action : Int
deriving DecidableEq

/-- The record produced by memset(&kargs, 0, sizeof(kargs)). -/
def zeroArgs : mobdev_args :=
  { enable := 0, path := List.replicate 128 0,
    ifname := List.replicate 32 0, action := 0 }

/- ------------------------------------------------------------------
   Error codes and the network-interface model
   ------------------------------------------------------------------ -/

def EINVAL : Int := 22

def EFAULT : Int := 14

def ENODEV : Int := 19

/-- errno EIO, the I/O-class error mobdev maps helper failures to. -/
def EIO_code : Int := 5

/-- IFF_UP, the administrative up flag bit of a net device. -/
def IFF_UP : Nat := 1

/-- The 32-bit unsigned complement of IFF_UP, so that
flags &= ~IFF_UP is flags &&& IFF_UP_clear_mask. -/
def IFF_UP_clear_mask : Nat := 0xFFFFFFFE

/-- struct net_device, reduced to the fields mobdev touches: the
interface name (as the byte string dev_get_by_name compares) and the
unsigned 32-bit flags word. -/
structure net_device where
  name : List Nat
  flags : Nat
deriving DecidableEq

/-- dev_get_by_name over the interface registry: the first live
interface whose name equals the requested one. -/
def dev_get_by_name (net : List net_device) (nm : List Nat) :
    Option net_device :=
  net.find? (fun d => d.name = nm)

/-- Writing the flags word of the interface dev_get_by_name returned:
the first name match is updated in place, everything else untouched. -/
def update_dev_flags (net : List net_device) (nm : List Nat) (fl : Nat) :
    List net_device :=
  match net with
  | [] => []
  | d :: rest =>
      if d.name = nm then { d with flags := fl } :: rest
      else d :: update_dev_flags rest nm fl

/-- The administrative up flag is set: flags & IFF_UP is non-zero. -/
def admin_up (f : Nat) : Bool := (f &&& IFF_UP) ≠ 0

/- ------------------------------------------------------------------
   Tethering (mobdev_tethering of the six-command revision)
   ------------------------------------------------------------------ -/

/-- The 32-byte local ifname buffer of mobdev_tethering after
strncpy(ifname, args->ifname, sizeof(ifname) - 1) and the explicit
ifname[sizeof(ifname) - 1] = 0 termination. -/
def tether_local_ifname (args : mobdev_args) : List Nat :=
  strncpy args.ifname 31 ++ [0]

/-- The interface name mobdev_tethering hands to dev_get_by_name: the
C-string contents of its NUL-terminated local buffer. -/
def tether_name (args : mobdev_args) : List Nat :=
  cstrContents (tether_local_ifname args)

/-- Result of one mobdev_tethering call: the return value, the
interface registry after the call, the rtnl lock depth after the call
(the call does rtnl_lock and rtnl_unlock on every path), and whether a
flag flip (with its log line) happened. -/
structure TetherResult where
  ret : Int
  net : List net_device
  rtnl_depth : Nat
  transitioned : Bool
deriving DecidableEq

/-- mobdev_tethering: copy and terminate the interface name, take the
rtnl lock, resolve the interface, flip its administrative up flag only
when it differs from the requested state, release on every path. -/
def mobdev_tethering (args : mobdev_args) (net : List net_device)
    (rtnl_depth : Nat) : TetherResult :=
  let ifname := tether_name args
  let locked := rtnl_depth + 1
  match dev_get_by_name net ifname with
  | none =>
      { ret := -ENODEV, net := net, rtnl_depth := locked - 1,
        transitioned := false }
  | some ndev =>
      if args.enable ≠ 0 then
        if (ndev.flags &&& IFF_UP) = 0 then
          { ret := 0,
            net := update_dev_flags net ifname (ndev.flags ||| IFF_UP),
            rtnl_depth := locked - 1, transitioned := true }
        else
          { ret := 0, net := net, rtnl_depth := locked - 1,
            transitioned := false }
      else
        if (ndev.flags &&& IFF_UP) ≠ 0 then
          { ret := 0,
            net := update_dev_flags net ifname
              (ndev.flags &&& IFF_UP_clear_mask),
            rtnl_depth := locked - 1, transitioned := true }
        else
          { ret := 0, net := net, rtnl_depth := locked - 1,
            transitioned := false }

/- ------------------------------------------------------------------
   Registry and flag-bit lemmas
   ------------------------------------------------------------------ -/

theorem dev_get_by_name_cons (d : net_device) (rest : List net_device)
    (nm : List Nat) :
    dev_get_by_name (d :: rest) nm =
      if d.name = nm then some d else dev_get_by_name rest nm := by
  by_cases h : d.name = nm
  · rw [if_pos h]
    exact List.find?_cons_of_pos _ (by simpa using h)
  · rw [if_neg h]
    exact List.find?_cons_of_neg _ (by simpa using h)

theorem dev_found_name {net : List net_device} {nm : List Nat}
    {d : net_device} (h : dev_get_by_name net nm = some d) : d.name = nm := by
  have := List.find?_some h
  simpa using this

theorem dev_found_mem {net : List net_device} {nm : List Nat}
    {d : net_device} (h : dev_get_by_name net nm = some d) : d ∈ net :=
  List.mem_of_find?_eq_some h

theorem dev_get_update (net : List net_device) (nm : List Nat) (fl : Nat) :
    dev_get_by_name (update_dev_flags net nm fl) nm =
      (dev_get_by_name net nm).map (fun d => { d with flags := fl }) := by
  induction net with
  | nil => rfl
  | cons d rest ih =>
      by_cases h : d.name = nm
      · unfold update_dev_flags
        rw [if_pos h, dev_get_by_name_cons, dev_get_by_name_cons,
          if_pos (show ({ d with flags := fl } : net_device).name = nm from h),
          if_pos h]
        rfl
      · unfold update_dev_flags
        rw [if_neg h, dev_get_by_name_cons, dev_get_by_name_cons,
          if_neg h, if_neg h]
        exact ih

theorem update_hit (net : List net_device) (nm : List Nat) (fl : Nat)
    (d : net_device) (h : dev_get_by_name net nm = some d) :
    ∃ pre post, net = pre ++ d :: post ∧
      update_dev_flags net nm fl = pre ++ { d with flags := fl } :: post := by
  induction net with
  | nil => cases h
  | cons x rest ih =>
      rw [dev_get_by_name_cons] at h
      by_cases hx : x.name = nm
      · rw [if_pos hx] at h
        injection h with h
        subst h
        refine ⟨[], rest, rfl, ?_⟩
        unfold update_dev_flags
        rw [if_pos hx]
        rfl
      · rw [if_neg hx] at h
        obtain ⟨pre, post, h1, h2⟩ := ih h
        refine ⟨x :: pre, post, by rw [h1]; rfl, ?_⟩
        unfold update_dev_flags
        rw [if_neg hx, h2]
        rfl

theorem admin_up_testBit (f : Nat) : admin_up f = Nat.testBit f 0 := by
  simp [admin_up, IFF_UP, Nat.testBit, Nat.shiftRight_zero, Nat.land_comm,
    ← Bool.beq_eq_decide_eq]

theorem admin_up_lor (f : Nat) : admin_up (f ||| IFF_UP) = true := by
  rw [admin_up_testBit, Nat.testBit_lor]
  simp [show Nat.testBit IFF_UP 0 = true from by decide]

theorem admin_up_mask (f : Nat) :
    admin_up (f &&& IFF_UP_clear_mask) = false := by
  rw [admin_up_testBit, Nat.testBit_land]
  simp [show Nat.testBit IFF_UP_clear_mask 0 = false from by decide]

theorem admin_up_false_iff (f : Nat) :
    admin_up f = false ↔ (f &&& IFF_UP) = 0 := by
  simp [admin_up]

theorem testBit_lor_IFF_UP (f k : Nat) (hk : k ≠ 0) :
    Nat.testBit (f ||| IFF_UP) k = Nat.testBit f k := by
  have h1 : 1 ≤ k := Nat.one_le_iff_ne_zero.mpr hk
  have hbit : Nat.testBit IFF_UP k = false := by
    apply Nat.testBit_eq_false_of_lt
    calc (IFF_UP : Nat) < 2 ^ 1 := by norm_num [IFF_UP]
      _ ≤ 2 ^ k := Nat.pow_le_pow_right (by norm_num) h1
  rw [Nat.testBit_lor, hbit, Bool.or_false]

theorem testBit_mask_IFF_UP (f k : Nat) (hk : k ≠ 0) (hf : f < 2 ^ 32) :
    Nat.testBit (f &&& IFF_UP_clear_mask) k = Nat.testBit f k := by
  rw [Nat.testBit_land]
  by_cases h32 : k < 32
  · have h1 : 1 ≤ k := Nat.one_le_iff_ne_zero.mpr hk
    have hbit : Nat.testBit IFF_UP_clear_mask k = true := by
      interval_cases k <;> decide
    rw [hbit, Bool.and_true]
  · have hfk : Nat.testBit f k = false := by
      apply Nat.testBit_eq_false_of_lt
      calc f < 2 ^ 32 := hf
        _ ≤ 2 ^ k := Nat.pow_le_pow_right (by norm_num) (Nat.le_of_not_lt h32)
    have hfk2 : Nat.testBit (f &&& IFF_UP_clear_mask) k = false := by
      rw [Nat.testBit_land, hfk, Bool.false_and]
    rw [Nat.testBit_land] at hfk2
    rw [hfk2, hfk]

/-- A no-op tethering call: the found interface is already in the
requested administrative state, so nothing is flipped. -/
theorem mobdev_tethering_noop (args : mobdev_args) (net : List net_device)
    (L : Nat) (d : net_device)
    (h : dev_get_by_name net (tether_name args) = some d)
    (heq : admin_up d.flags = decide (args.enable ≠ 0)) :
    mobdev_tethering args net L =
      { ret := 0, net := net, rtnl_depth := L, transitioned := false } := by
  simp only [mobdev_tethering, h]
  by_cases he : args.enable ≠ 0
  · rw [if_pos he]
    have heq1 : admin_up d.flags = true := by
      rw [heq]; exact decide_eq_true he
    have hne : ¬ ((d.flags &&& IFF_UP) = 0) := by
      simpa [admin_up] using heq1
    rw [if_neg hne]
    simp
  · rw [if_neg he]
    have heq0 : admin_up d.flags = false := by
      rw [heq]; exact decide_eq_false he
    have hz : (d.flags &&& IFF_UP) = 0 := (admin_up_false_iff d.flags).mp heq0
    rw [if_neg (by rw [hz]; simp)]
    simp

/-- A flipping tethering call: the found interface differs from the
requested administrative state, so exactly its IFF_UP bit is written. -/
theorem mobdev_tethering_flip (args : mobdev_args) (net : List net_device)
    (L : Nat) (d : net_device)
    (h : dev_get_by_name net (tether_name args) = some d)
    (hne : admin_up d.flags ≠ decide (args.enable ≠ 0)) :
    mobdev_tethering args net L =
      { ret := 0,
        net := update_dev_flags net (tether_name args)
          (if args.enable ≠ 0 then d.flags ||| IFF_UP
           else d.flags &&& IFF_UP_clear_mask),
        rtnl_depth := L, transitioned := true } := by
  simp only [mobdev_tethering, h]
  by_cases he : args.enable ≠ 0
  · rw [if_pos he, if_pos he]
    have hne1 : admin_up d.flags ≠ true := by
      rw [decide_eq_true he] at hne; exact hne
    have hz : (d.flags &&& IFF_UP) = 0 := by
      have : admin_up d.flags = false := by
        cases hb : admin_up d.flags
        · rfl
        · exact absurd hb hne1
      exact (admin_up_false_iff d.flags).mp this
    rw [if_pos hz]
    simp
  · rw [if_neg he, if_neg he]
    have hne0 : admin_up d.flags ≠ false := by
      rw [decide_eq_false he] at hne; exact hne
    have hz : ¬ ((d.flags &&& IFF_UP) = 0) := by
      intro hcon
      exact hne0 ((admin_up_false_iff d.flags).mpr hcon)
    rw [if_pos hz]
    simp

/-- A tethering call whose name resolves to no interface: unlock and
return -ENODEV with nothing touched. -/
theorem mobdev_tethering_miss (args : mobdev_args) (net : List net_device)
    (L : Nat) (h : dev_get_by_name net (tether_name args) = none) :
    mobdev_tethering args net L =
      { ret := -ENODEV, net := net, rtnl_depth := L, transitioned := false } := by
  simp only [mobdev_tethering, h]
  simp

/-- C2. SetInterfaceUp (Tethering) is idempotent: on a resolvable name,
the call succeeds; when the administrative up flag already equals the
requested state nothing is flipped; afterwards the flag equals the
requested state; an immediately repeated call with the same value flips
nothing further (so two calls in a row from a differing state make
exactly one transition); and when the state differed the first call did
transition. -/
theorem tethering_idempotent_spec (args : mobdev_args) (net : List net_device)
    (L : Nat) (d : net_device)
    (h : dev_get_by_name net (tether_name args) = some d) :
    (mobdev_tethering args net L).ret = 0 ∧
    (admin_up d.flags = decide (args.enable ≠ 0) →
      (mobdev_tethering args net L).net = net ∧
      (mobdev_tethering args net L).transitioned = false) ∧
    (∃ d2, dev_get_by_name (mobdev_tethering args net L).net
        (tether_name args) = some d2 ∧
      admin_up d2.flags = decide (args.enable ≠ 0)) ∧
    (mobdev_tethering args ((mobdev_tethering args net L).net) L).net =
      (mobdev_tethering args net L).net ∧
    (mobdev_tethering args ((mobdev_tethering args net L).net) L).transitioned
      = false ∧
    (admin_up d.flags ≠ decide (args.enable ≠ 0) →
      (mobdev_tethering args net L).transitioned = true) := by
  by_cases heq : admin_up d.flags = decide (args.enable ≠ 0)
  · have hr := mobdev_tethering_noop args net L d h heq
    rw [hr]
    refine ⟨rfl, fun _ => ⟨rfl, rfl⟩, ⟨d, h, heq⟩, ?_, ?_,
      fun hne => absurd heq hne⟩
    · show (mobdev_tethering args net L).net = net
      rw [hr]
    · show (mobdev_tethering args net L).transitioned = false
      rw [hr]
  · have hr := mobdev_tethering_flip args net L d h heq
    have hup : admin_up (if args.enable ≠ 0 then d.flags ||| IFF_UP
        else d.flags &&& IFF_UP_clear_mask) = decide (args.enable ≠ 0) := by
      by_cases he : args.enable ≠ 0
      · rw [if_pos he, admin_up_lor, decide_eq_true he]
      · rw [if_neg he, admin_up_mask, decide_eq_false he]
    have hfind2 : dev_get_by_name
        (update_dev_flags net (tether_name args)
          (if args.enable ≠ 0 then d.flags ||| IFF_UP
           else d.flags &&& IFF_UP_clear_mask)) (tether_name args) =
        some { d with flags :=
          (if args.enable ≠ 0 then d.flags ||| IFF_UP
           else d.flags &&& IFF_UP_clear_mask) } := by
      rw [dev_get_update, h]
      rfl
    have hr2 := mobdev_tethering_noop args
      (update_dev_flags net (tether_name args)
        (if args.enable ≠ 0 then d.flags ||| IFF_UP
         else d.flags &&& IFF_UP_clear_mask)) L
      { d with flags :=
          (if args.enable ≠ 0 then d.flags ||| IFF_UP
           else d.flags &&& IFF_UP_clear_mask) } hfind2 hup
    rw [hr]
    refine ⟨rfl, fun hcon => absurd hcon heq,
      ⟨{ d with flags :=
          (if args.enable ≠ 0 then d.flags ||| IFF_UP
           else d.flags &&& IFF_UP_clear_mask) }, hfind2, hup⟩,
      ?_, ?_, fun _ => rfl⟩
    · show (mobdev_tethering args
          (update_dev_flags net (tether_name args)
            (if args.enable ≠ 0 then d.flags ||| IFF_UP
             else d.flags &&& IFF_UP_clear_mask)) L).net =
        update_dev_flags net (tether_name args)
          (if args.enable ≠ 0 then d.flags ||| IFF_UP
           else d.flags &&& IFF_UP_clear_mask)
      rw [hr2]
    · show (mobdev_tethering args
          (update_dev_flags net (tether_name args)
            (if args.enable ≠ 0 then d.flags ||| IFF_UP
             else d.flags &&& IFF_UP_clear_mask)) L).transitioned = false
      rw [hr2]

/-- A concrete interface named usb0, administratively down. -/
def usb0_dev : net_device := { name := [117, 115, 98, 48], flags := 0 }

/-- Concrete tethering arguments requesting usb0 up. -/
def usb0_args : mobdev_args :=
  { enable := 1, path := List.replicate 128 0,
    ifname := [117, 115, 98, 48] ++ List.replicate 28 0, action := 0 }

/-- Witness for C2 at a concrete registry holding a down usb0. -/
theorem tethering_idempotent_witness :
    (mobdev_tethering usb0_args [usb0_dev] 0).ret = 0 ∧
    (admin_up usb0_dev.flags = decide (usb0_args.enable ≠ 0) →
      (mobdev_tethering usb0_args [usb0_dev] 0).net = [usb0_dev] ∧
      (mobdev_tethering usb0_args [usb0_dev] 0).transitioned = false) ∧
    (∃ d2, dev_get_by_name (mobdev_tethering usb0_args [usb0_dev] 0).net
        (tether_name usb0_args) = some d2 ∧
      admin_up d2.flags = decide (usb0_args.enable ≠ 0)) ∧
    (mobdev_tethering usb0_args
        ((mobdev_tethering usb0_args [usb0_dev] 0).net) 0).net =
      (mobdev_tethering usb0_args [usb0_dev] 0).net ∧
    (mobdev_tethering usb0_args
        ((mobdev_tethering usb0_args [usb0_dev] 0).net) 0).transitioned
      = false ∧
    (admin_up usb0_dev.flags ≠ decide (usb0_args.enable ≠ 0) →
      (mobdev_tethering usb0_args [usb0_dev] 0).transitioned = true) :=
  tethering_idempotent_spec usb0_args [usb0_dev] 0 usb0_dev (by decide)

/-- C7. A Tethering call whose interface name does not resolve returns
-ENODEV, flips no administrative flag (the registry is unchanged and no
transition fired), and has released the rtnl lock on return. -/
theorem tethering_interface_not_found_spec (args : mobdev_args)
    (net : List net_device) (L : Nat)
    (h : dev_get_by_name net (tether_name args) = none) :
    mobdev_tethering args net L =
      { ret := -ENODEV, net := net, rtnl_depth := L,
        transitioned := false } :=
  mobdev_tethering_miss args net L h

/-- Witness for C7: an empty interface registry. -/
theorem tethering_interface_not_found_witness :
    mobdev_tethering usb0_args [] 0 =
      { ret := -ENODEV, net := [], rtnl_depth := 0,
        transitioned := false } :=
  tethering_interface_not_found_spec usb0_args [] 0 (by decide)

/-- C10. Frame property of Tethering: the call can change nothing but
the IFF_UP bit of the first interface matching the requested name;
every interface keeps its name, every flag bit other than bit 0 of
every interface is unchanged, and every interface with a different name
is wholly unchanged (the registry keeps its length). -/
theorem tethering_frame_spec (args : mobdev_args) (net : List net_device)
    (L : Nat) (hwf : ∀ d ∈ net, d.flags < 2 ^ 32) :
    (mobdev_tethering args net L).net.length = net.length ∧
    List.Forall₂ (fun a b => a.name = b.name ∧
        (∀ k, k ≠ 0 → Nat.testBit b.flags k = Nat.testBit a.flags k) ∧
        (a.name ≠ tether_name args → b = a))
      net (mobdev_tethering args net L).net := by
  have hrefl : ∀ x : net_device, x.name = x.name ∧
      (∀ k, k ≠ 0 → Nat.testBit x.flags k = Nat.testBit x.flags k) ∧
      (x.name ≠ tether_name args → x = x) :=
    fun x => ⟨rfl, fun _ _ => rfl, fun _ => rfl⟩
  cases hfind : dev_get_by_name net (tether_name args) with
  | none =>
      rw [mobdev_tethering_miss args net L hfind]
      exact ⟨rfl, List.forall₂_same.mpr (fun x _ => hrefl x)⟩
  | some d =>
      by_cases heq : admin_up d.flags = decide (args.enable ≠ 0)
      · rw [mobdev_tethering_noop args net L d hfind heq]
        exact ⟨rfl, List.forall₂_same.mpr (fun x _ => hrefl x)⟩
      · rw [mobdev_tethering_flip args net L d hfind heq]
        obtain ⟨pre, post, hnet, hupd⟩ := update_hit net (tether_name args)
          (if args.enable ≠ 0 then d.flags ||| IFF_UP
           else d.flags &&& IFF_UP_clear_mask) d hfind
        have hdf : d.flags < 2 ^ 32 := hwf d (dev_found_mem hfind)
        have hmid : d.name = ({ d with flags :=
            (if args.enable ≠ 0 then d.flags ||| IFF_UP
             else d.flags &&& IFF_UP_clear_mask) } : net_device).name ∧
            (∀ k, k ≠ 0 → Nat.testBit ({ d with flags :=
              (if args.enable ≠ 0 then d.flags ||| IFF_UP
               else d.flags &&& IFF_UP_clear_mask) } : net_device).flags k =
              Nat.testBit d.flags k) ∧
            (d.name ≠ tether_name args → { d with flags :=
              (if args.enable ≠ 0 then d.flags ||| IFF_UP
               else d.flags &&& IFF_UP_clear_mask) } = d) := by
          refine ⟨rfl, ?_, fun hne => absurd (dev_found_name hfind) hne⟩
          intro k hk
          by_cases he : args.enable ≠ 0
          · simp only [if_pos he]
            exact testBit_lor_IFF_UP d.flags k hk
          · simp only [if_neg he]
            exact testBit_mask_IFF_UP d.flags k hk hdf
        constructor
        · show (update_dev_flags net (tether_name args) _).length = net.length
          rw [hupd, hnet]
          simp
        · show List.Forall₂ _ net (update_dev_flags net (tether_name args) _)
          rw [hupd, hnet]
          refine List.rel_append ?_ (List.Forall₂.cons hmid
            (List.forall₂_same.mpr (fun x _ => hrefl x)))
          exact List.forall₂_same.mpr (fun x _ => hrefl x)

/-- Witness for C10 at a concrete one-entry registry. -/
theorem tethering_frame_witness :
    (mobdev_tethering usb0_args [usb0_dev] 0).net.length =
      ([usb0_dev] : List net_device).length ∧
    List.Forall₂ (fun a b => a.name = b.name ∧
        (∀ k, k ≠ 0 → Nat.testBit b.flags k = Nat.testBit a.flags k) ∧
        (a.name ≠ tether_name usb0_args → b = a))
      [usb0_dev] (mobdev_tethering usb0_args [usb0_dev] 0).net :=
  tethering_frame_spec usb0_args [usb0_dev] 0 (by decide)

/- ------------------------------------------------------------------
   C-string lemmas for the marshaled text fields
   ------------------------------------------------------------------ -/

theorem strncpy_length (src : List Nat) (n : Nat) :
    (strncpy src n).length = n := by
  induction n generalizing src with
  | zero => simp [strncpy]
  | succ m ih =>
      cases src with
      | nil => simp [strncpy]
      | cons b rest =>
          by_cases hb : b = 0
          · simp [strncpy, hb]
          · simp [strncpy, hb, ih]

theorem takeWhile_length_le (p : Nat → Bool) (l : List Nat) :
    (l.takeWhile p).length ≤ l.length := by
  induction l with
  | nil => simp
  | cons b rest ih =>
      by_cases hb : p b
      · simp only [List.takeWhile_cons, hb]
        simpa using ih
      · simp only [List.takeWhile_cons]
        rw [if_neg (by simpa using hb)]
        simp

theorem cstringRead_of_mem_zero (buf : List Nat) (h : 0 ∈ buf) :
    cstringRead buf = some (cstrContents buf) := by
  induction buf with
  | nil => cases h
  | cons b rest ih =>
      by_cases hb : b = 0
      · subst hb
        simp [cstringRead, cstrContents]
      · have hr : 0 ∈ rest := by
          rcases List.mem_cons.mp h with h0 | h0
          · exact absurd h0.symm hb
          · exact h0
        simp only [cstringRead, if_neg hb, ih hr, cstrContents,
          List.takeWhile_cons]
        rw [if_pos (by simpa using hb)]
        rfl

theorem cstrContents_strncpy (src : List Nat) (n : Nat) :
    cstrContents (strncpy src n ++ [0]) =
      (src.take n).takeWhile (fun b => b ≠ 0) := by
  induction n generalizing src with
  | zero => simp [strncpy, cstrContents]
  | succ m ih =>
      cases src with
      | nil =>
          simp [strncpy, cstrContents, List.replicate_succ,
            List.takeWhile_cons]
      | cons b rest =>
          by_cases hb : b = 0
          · subst hb
            simp [strncpy, cstrContents, List.replicate_succ,
              List.takeWhile_cons]
          · simp only [strncpy, if_neg hb, List.cons_append,
              List.take_succ_cons]
            unfold cstrContents
            rw [List.takeWhile_cons, List.takeWhile_cons,
              if_pos (by simpa using hb), if_pos (by simpa using hb)]
            congr 1
            exact ih rest

theorem tether_local_ifname_length (args : mobdev_args) :
    (tether_local_ifname args).length = 32 := by
  simp [tether_local_ifname, strncpy_length]

theorem tether_local_ifname_terminated (args : mobdev_args) :
    cstringRead (tether_local_ifname args) = some (tether_name args) := by
  unfold tether_name
  exact cstringRead_of_mem_zero _ (by simp [tether_local_ifname])

theorem tether_name_take31 (args : mobdev_args) :
    tether_name args = (args.ifname.take 31).takeWhile (fun b => b ≠ 0) := by
  unfold tether_name tether_local_ifname
  exact cstrContents_strncpy args.ifname 31

theorem tether_name_length_le (args : mobdev_args) :
    (tether_name args).length ≤ 31 := by
  rw [tether_name_take31]
  calc ((args.ifname.take 31).takeWhile (fun b => b ≠ 0)).length
      ≤ (args.ifname.take 31).length := takeWhile_length_le _ _
    _ ≤ 31 := by simp [List.length_take]

/- ------------------------------------------------------------------
   External helper bridge callers
   ------------------------------------------------------------------ -/

/-- An argument vector handed to call_usermodehelper: each entry is the
C-string read of the byte buffer behind the pointer; none marks a read
that ran past the buffer (an unterminated field). -/
abbrev Argv := List (Option (List Nat))

/-- The sanitized environment every helper invocation uses. -/
def umh_envp : List (List Nat) :=
  [lit "HOME=/", lit "PATH=/sbin:/usr/sbin:/bin:/usr/bin"]

/-- mobdev_file_transfer of the six-command revision: build the adb
wrapper argv (push/pull, the raw path field, the fixed destination),
run the helper synchronously, map a negative status to -EIO and any
other status to success.  The helper oracle stands for the external
process; the argv is also returned so invocations are observable. -/
def mobdev_file_transfer (args : mobdev_args) (helper : Argv → Int) :
    Int × Argv :=
  let argv : Argv :=
    [some (lit "/tmp/adb_wrapper.sh"),
     some (lit (if args.enable ≠ 0 then "push" else "pull")),
     cstringRead args.path,
     some (lit (if args.enable ≠ 0 then "/sdcard/" else "/home/user/"))]
  let ret := helper argv
  if ret < 0 then (-EIO_code, argv) else (0, argv)

/-- mobdev_call_control: adb shell input keyevent KEYCODE_CALL or
KEYCODE_ENDCALL, same status mapping as file transfer. -/
def mobdev_call_control (args : mobdev_args) (helper : Argv → Int) :
    Int × Argv :=
  let argv : Argv :=
    [some (lit "/tmp/adb_wrapper.sh"), some (lit "shell"),
     some (lit "input"), some (lit "keyevent"),
     some (lit (if args.action = 1 then "KEYCODE_CALL"
                else "KEYCODE_ENDCALL"))]
  let ret := helper argv
  if ret < 0 then (-EIO_code, argv) else (0, argv)

/-- mobdev_media_control: adb shell input keyevent KEYCODE_VOLUME_UP or
KEYCODE_VOLUME_DOWN, same status mapping. -/
def mobdev_media_control (args : mobdev_args) (helper : Argv → Int) :
    Int × Argv :=
  let argv : Argv :=
    [some (lit "/tmp/adb_wrapper.sh"), some (lit "shell"),
     some (lit "input"), some (lit "keyevent"),
     some (lit (if args.action = 1 then "KEYCODE_VOLUME_UP"
                else "KEYCODE_VOLUME_DOWN"))]
  let ret := helper argv
  if ret < 0 then (-EIO_code, argv) else (0, argv)

/-- mobdev_notifications of the six-command revision: log the requested
state and return 0; this revision keeps no notification state. -/
def mobdev_notifications (args : mobdev_args) : Int := 0

/- ------------------------------------------------------------------
   Notification state machine (revision with the file-scope flag)
   ------------------------------------------------------------------ -/

/-- The observable side effect of one mobdev_notifications call in the
state-machine revision: the enable branch logs and calls
send_fake_notification_to_userspace, the disable branch logs the
teardown, the remaining branch logs that nothing changed. -/
inductive NotifEvent where
  | notifyDownstream
  | teardown
  | noChange
deriving DecidableEq

namespace Ctrl

/-- static bool notifications_enabled = false: the initial state. -/
def notifications_enabled_init : Bool := false

/-- mobdev_notifications of the state-machine revision: enable when
asked and disabled (firing the downstream notification), disable when
asked and enabled (firing the teardown), otherwise change nothing. -/
def mobdev_notifications (enable : Int) (notifications_enabled : Bool) :
    Int × Bool × NotifEvent :=
  if enable ≠ 0 ∧ notifications_enabled = false then
    (0, true, NotifEvent.notifyDownstream)
  else if enable = 0 ∧ notifications_enabled = true then
    (0, false, NotifEvent.teardown)
  else
    (0, notifications_enabled, NotifEvent.noChange)

end Ctrl

/- ------------------------------------------------------------------
   The syscall dispatcher (six-command revision)
   ------------------------------------------------------------------ -/

def MOBDEV_DETECT : Nat := 0

def MOBDEV_FILE_TRANSFER : Nat := 1

def MOBDEV_TETHERING : Nat := 2

def MOBDEV_NOTIFICATIONS : Nat := 3

def MOBDEV_CALL_CONTROL : Nat := 4

def MOBDEV_MEDIA_CONTROL : Nat := 5

/-- The untrusted caller argument pointer: a null pointer, a readable
record, or a non-null pointer into inaccessible memory. -/
inductive UserArg where
  | null
  | valid (a : mobdev_args)
  | fault
deriving DecidableEq

/-- arg == 0 in the dispatcher condition. -/
def UserArg.isNull : UserArg → Bool
  | UserArg.null => true
  | _ => false

/-- copy_from_user over the modelled pointer: a readable record copies
bytewise (no truncation, no termination), anything else faults. -/
def copy_from_user : UserArg → Option mobdev_args
  | UserArg.valid a => some a
  | _ => none

/-- The payload-command test of the dispatcher condition. -/
def payloadCmd (cmd : Nat) : Bool :=
  decide (cmd = MOBDEV_FILE_TRANSFER ∨ cmd = MOBDEV_TETHERING ∨
    cmd = MOBDEV_NOTIFICATIONS ∨ cmd = MOBDEV_CALL_CONTROL ∨
    cmd = MOBDEV_MEDIA_CONTROL)

/-- Whether the dispatcher touches the caller argument memory: exactly
when the command carries a payload and the pointer is non-null. -/
def readsUserMem (cmd : Nat) (arg : UserArg) : Bool :=
  payloadCmd cmd && !arg.isNull

/-- Result of one sys_mobdev_control call: the return value, the
interface registry, the rtnl lock depth, the process-wide notification
flag, and every helper invocation performed. -/
structure SysResult where
  ret : Int
  net : List net_device
  rtnl_depth : Nat
  notif : Bool
  helperCalls : List Argv
deriving DecidableEq

/-- The switch of sys_mobdev_control, run on the marshaled record. The
six-command revision has no MOBDEV_DETECT case, so command 0 falls to
the default like any unknown value. -/
def mobdev_switch (cmd : Nat) (kargs : mobdev_args) (net : List net_device)
    (L : Nat) (notif : Bool) (helper : Argv → Int) : SysResult :=
  if cmd = MOBDEV_FILE_TRANSFER then
    let r := mobdev_file_transfer kargs helper
    { ret := r.fst, net := net, rtnl_depth := L, notif := notif,
      helperCalls := [r.snd] }
  else if cmd = MOBDEV_TETHERING then
    let r := mobdev_tethering kargs net L
    { ret := r.ret, net := r.net, rtnl_depth := r.rtnl_depth,
      notif := notif, helperCalls := [] }
  else if cmd = MOBDEV_NOTIFICATIONS then
    { ret := mobdev_notifications kargs, net := net, rtnl_depth := L,
      notif := notif, helperCalls := [] }
  else if cmd = MOBDEV_CALL_CONTROL then
    let r := mobdev_call_control kargs helper
    { ret := r.fst, net := net, rtnl_depth := L, notif := notif,
      helperCalls := [r.snd] }
  else if cmd = MOBDEV_MEDIA_CONTROL then
    let r := mobdev_media_control kargs helper
    { ret := r.fst, net := net, rtnl_depth := L, notif := notif,
      helperCalls := [r.snd] }
  else
    { ret := -EINVAL, net := net, rtnl_depth := L, notif := notif,
      helperCalls := [] }

/-- sys_mobdev_control: copy the argument record from the caller when
the command carries a payload and the pointer is non-null (failing the
whole call with -EFAULT when the copy faults), otherwise proceed with
the memset-to-zero record; then dispatch by command. -/
def sys_mobdev_control (cmd : Nat) (arg : UserArg) (net : List net_device)
    (L : Nat) (notif : Bool) (helper : Argv → Int) : SysResult :=
  if payloadCmd cmd && !arg.isNull then
    match copy_from_user arg with
    | some kargs => mobdev_switch cmd kargs net L notif helper
    | none =>
        { ret := -EFAULT, net := net, rtnl_depth := L, notif := notif,
          helperCalls := [] }
  else
    mobdev_switch cmd zeroArgs net L notif helper

/- ------------------------------------------------------------------
   Dispatcher reduction lemmas
   ------------------------------------------------------------------ -/

theorem sys_valid_eq_switch (cmd : Nat) (a : mobdev_args)
    (net : List net_device) (L : Nat) (notif : Bool) (helper : Argv → Int)
    (h : payloadCmd cmd = true) :
    sys_mobdev_control cmd (UserArg.valid a) net L notif helper =
      mobdev_switch cmd a net L notif helper := by
  simp [sys_mobdev_control, h, UserArg.isNull, copy_from_user]

theorem mobdev_file_transfer_fail (args : mobdev_args) (helper : Argv → Int)
    (h : ∀ av, helper av < 0) :
    (mobdev_file_transfer args helper).fst = -EIO_code := by
  simp only [mobdev_file_transfer]
  rw [if_pos (h _)]

theorem mobdev_call_control_fail (args : mobdev_args) (helper : Argv → Int)
    (h : ∀ av, helper av < 0) :
    (mobdev_call_control args helper).fst = -EIO_code := by
  simp only [mobdev_call_control]
  rw [if_pos (h _)]

theorem mobdev_media_control_fail (args : mobdev_args) (helper : Argv → Int)
    (h : ∀ av, helper av < 0) :
    (mobdev_media_control args helper).fst = -EIO_code := by
  simp only [mobdev_media_control]
  rw [if_pos (h _)]

theorem mobdev_file_transfer_argv_eq (args : mobdev_args)
    (helper : Argv → Int) :
    (mobdev_file_transfer args helper).snd =
      [some (lit "/tmp/adb_wrapper.sh"),
       some (lit (if args.enable ≠ 0 then "push" else "pull")),
       cstringRead args.path,
       some (lit (if args.enable ≠ 0 then "/sdcard/" else "/home/user/"))] := by
  simp only [mobdev_file_transfer]
  split <;> split <;> rfl

/- ------------------------------------------------------------------
   C3: bounded-field truncation (corrected)
   ------------------------------------------------------------------ -/

/-- A caller record whose 128-byte path field holds no terminator. -/
def args_unterminated : mobdev_args :=
  { enable := 1, path := List.replicate 128 65,
    ifname := List.replicate 32 0, action := 0 }

set_option maxRecDepth 8000 in
/-- Counterexample to C3 as stated: after marshaling (copy_from_user
copies the record bytewise), the path field of a concrete record is not
terminated anywhere inside its 128-byte capacity (its C-string read
runs past the buffer), and FileTransfer nevertheless uses exactly that
raw read as helper argv entry 2, so an operation does read the field
past its declared capacity. -/
theorem path_unterminated_after_marshal_cex :
    copy_from_user (UserArg.valid args_unterminated) =
      some args_unterminated ∧
    cstringRead args_unterminated.path = none ∧
    (mobdev_file_transfer args_unterminated (fun _ => 0)).snd.get? 2 =
      some none := by
  refine ⟨rfl, by decide, ?_⟩
  rw [mobdev_file_transfer_argv_eq]
  show some (cstringRead args_unterminated.path) = some none
  rw [show cstringRead args_unterminated.path = none from by decide]

/-- C3 amended: only the ifname field is truncated and terminated
before use — Tethering works on a 32-byte local buffer that is always
NUL-terminated, holds at most 31 name bytes and depends only on the
first 31 bytes the caller supplied; the path field is passed through
marshaling unmodified and FileTransfer hands its raw (possibly
unterminated) C-string read to the helper. -/
theorem bounded_field_truncation_amended (args : mobdev_args) :
    (tether_local_ifname args).length = 32 ∧
    cstringRead (tether_local_ifname args) = some (tether_name args) ∧
    tether_name args = (args.ifname.take 31).takeWhile (fun b => b ≠ 0) ∧
    (tether_name args).length ≤ 31 ∧
    (∀ helper, (mobdev_file_transfer args helper).snd.get? 2 =
      some (cstringRead args.path)) :=
  ⟨tether_local_ifname_length args, tether_local_ifname_terminated args,
   tether_name_take31 args, tether_name_length_le args,
   fun helper => by rw [mobdev_file_transfer_argv_eq]; rfl⟩

/- ------------------------------------------------------------------
   C4: helper-failure propagation (corrected)
   ------------------------------------------------------------------ -/

/-- Counterexample to C4 as stated: the helper reports the non-zero
(failed) exit status 256, yet FileTransfer dispatch returns 0
(success), not the -EIO error — the code only maps negative statuses
to -EIO. -/
theorem helper_nonzero_exit_success_cex :
    (sys_mobdev_control MOBDEV_FILE_TRANSFER (UserArg.valid zeroArgs) [] 0
      false (fun _ => 256)).ret = 0 ∧ (0 : Int) ≠ -EIO_code := by
  constructor
  · rfl
  · decide

/-- C4 amended: when the external bridge reports a negative status
(inability to start), FileTransfer, CallControl and MediaControl
dispatches each return -EIO; and regardless of the helper status these
dispatches never alter the interface registry, the notification flag or
the lock depth. -/
theorem helper_negative_exit_spec (cmd : Nat) (args : mobdev_args)
    (net : List net_device) (L : Nat) (notif : Bool)
    (hc : cmd = MOBDEV_FILE_TRANSFER ∨ cmd = MOBDEV_CALL_CONTROL ∨
      cmd = MOBDEV_MEDIA_CONTROL) :
    (∀ helper : Argv → Int, (∀ av, helper av < 0) →
      (sys_mobdev_control cmd (UserArg.valid args) net L notif helper).ret
        = -EIO_code) ∧
    (∀ helper : Argv → Int,
      (sys_mobdev_control cmd (UserArg.valid args) net L notif
          helper).net = net ∧
      (sys_mobdev_control cmd (UserArg.valid args) net L notif
          helper).notif = notif ∧
      (sys_mobdev_control cmd (UserArg.valid args) net L notif
          helper).rtnl_depth = L) := by
  rcases hc with h | h | h <;> subst h
  · refine ⟨?_, fun helper => ⟨rfl, rfl, rfl⟩⟩
    intro helper hneg
    rw [sys_valid_eq_switch _ _ _ _ _ _ (by decide)]
    show (mobdev_file_transfer args helper).fst = -EIO_code
    exact mobdev_file_transfer_fail args helper hneg
  · refine ⟨?_, fun helper => ⟨rfl, rfl, rfl⟩⟩
    intro helper hneg
    rw [sys_valid_eq_switch _ _ _ _ _ _ (by decide)]
    show (mobdev_call_control args helper).fst = -EIO_code
    exact mobdev_call_control_fail args helper hneg
  · refine ⟨?_, fun helper => ⟨rfl, rfl, rfl⟩⟩
    intro helper hneg
    rw [sys_valid_eq_switch _ _ _ _ _ _ (by decide)]
    show (mobdev_media_control args helper).fst = -EIO_code
    exact mobdev_media_control_fail args helper hneg

/-- Witness for C4 amended: a helper that cannot start (status -1). -/
theorem helper_negative_exit_witness :
    (sys_mobdev_control MOBDEV_FILE_TRANSFER (UserArg.valid zeroArgs) [] 0
      false (fun _ => -1)).ret = -EIO_code ∧
    (sys_mobdev_control MOBDEV_FILE_TRANSFER (UserArg.valid zeroArgs) [] 0
      false (fun _ => -1)).net = [] ∧
    (sys_mobdev_control MOBDEV_FILE_TRANSFER (UserArg.valid zeroArgs) [] 0
      false (fun _ => -1)).notif = false ∧
    (sys_mobdev_control MOBDEV_FILE_TRANSFER (UserArg.valid zeroArgs) [] 0
      false (fun _ => -1)).rtnl_depth = 0 := by
  have h := helper_negative_exit_spec MOBDEV_FILE_TRANSFER zeroArgs [] 0
    false (Or.inl rfl)
  exact ⟨h.1 (fun _ => -1) (fun _ => show (-1 : Int) < 0 by decide),
    (h.2 (fun _ => -1)).1, (h.2 (fun _ => -1)).2.1,
    (h.2 (fun _ => -1)).2.2⟩

/- ------------------------------------------------------------------
   C5: the notification state machine
   ------------------------------------------------------------------ -/

/-- C5. The notification state machine starts Disabled; every call from
Disabled requesting Enabled fires the notify-downstream side effect,
every call from Enabled requesting Disabled fires the teardown side
effect, and requesting the already-current state leaves the flag
unchanged and fires only the no-change branch. -/
theorem notifications_state_machine_spec :
    Ctrl.notifications_enabled_init = false ∧
    (∀ e : Int, e ≠ 0 →
      Ctrl.mobdev_notifications e false =
        (0, true, NotifEvent.notifyDownstream)) ∧
    (∀ e : Int, e = 0 →
      Ctrl.mobdev_notifications e true = (0, false, NotifEvent.teardown)) ∧
    (∀ (e : Int) (s : Bool), (e ≠ 0 ↔ s = true) →
      Ctrl.mobdev_notifications e s = (0, s, NotifEvent.noChange)) := by
  refine ⟨rfl, ?_, ?_, ?_⟩
  · intro e he
    unfold Ctrl.mobdev_notifications
    rw [if_pos ⟨he, rfl⟩]
  · intro e he
    unfold Ctrl.mobdev_notifications
    rw [if_neg (fun hcon => hcon.1 he), if_pos ⟨he, rfl⟩]
  · intro e s hiff
    unfold Ctrl.mobdev_notifications
    cases s with
    | false =>
        have he : e = 0 := by
          by_contra hne
          exact Bool.false_ne_true (hiff.mp hne)
        rw [if_neg (fun hcon => hcon.1 he),
          if_neg (fun hcon => by simpa using hcon.2)]
    | true =>
        have he : e ≠ 0 := hiff.mpr rfl
        rw [if_neg (fun hcon => by simpa using hcon.2),
          if_neg (fun hcon => he hcon.1)]

/-- Witness for C5: both transitions and both no-op requests at
concrete inputs. -/
theorem notifications_state_machine_witness :
    Ctrl.mobdev_notifications 1 false =
      (0, true, NotifEvent.notifyDownstream) ∧
    Ctrl.mobdev_notifications 0 true = (0, false, NotifEvent.teardown) ∧
    Ctrl.mobdev_notifications 1 true = (0, true, NotifEvent.noChange) ∧
    Ctrl.mobdev_notifications 0 false = (0, false, NotifEvent.noChange) :=
  ⟨notifications_state_machine_spec.2.1 1 (by decide),
   notifications_state_machine_spec.2.2.1 0 rfl,
   notifications_state_machine_spec.2.2.2 1 true (by decide),
   notifications_state_machine_spec.2.2.2 0 false (by decide)⟩

/- ------------------------------------------------------------------
   C6: unknown command rejection
   ------------------------------------------------------------------ -/

/-- C6. Every command code outside the closed enumeration makes the
dispatcher return -EINVAL with zero helper invocations, the registry,
lock depth and notification flag unchanged, and without reading the
caller argument memory at all. -/
theorem unknown_command_spec (cmd : Nat) (arg : UserArg)
    (net : List net_device) (L : Nat) (notif : Bool) (helper : Argv → Int)
    (h : MOBDEV_MEDIA_CONTROL < cmd) :
    sys_mobdev_control cmd arg net L notif helper =
      { ret := -EINVAL, net := net, rtnl_depth := L, notif := notif,
        helperCalls := [] } ∧
    readsUserMem cmd arg = false := by
  have h5 : (5 : Nat) < cmd := by simpa [MOBDEV_MEDIA_CONTROL] using h
  have hp : payloadCmd cmd = false := by
    simp only [payloadCmd, MOBDEV_FILE_TRANSFER, MOBDEV_TETHERING,
      MOBDEV_NOTIFICATIONS, MOBDEV_CALL_CONTROL, MOBDEV_MEDIA_CONTROL,
      decide_eq_false_iff_not]
    omega
  have hc1 : ¬ cmd = MOBDEV_FILE_TRANSFER := by
    simp only [MOBDEV_FILE_TRANSFER]; omega
  have hc2 : ¬ cmd = MOBDEV_TETHERING := by
    simp only [MOBDEV_TETHERING]; omega
  have hc3 : ¬ cmd = MOBDEV_NOTIFICATIONS := by
    simp only [MOBDEV_NOTIFICATIONS]; omega
  have hc4 : ¬ cmd = MOBDEV_CALL_CONTROL := by
    simp only [MOBDEV_CALL_CONTROL]; omega
  have hc5 : ¬ cmd = MOBDEV_MEDIA_CONTROL := by
    simp only [MOBDEV_MEDIA_CONTROL]; omega
  constructor
  · unfold sys_mobdev_control
    rw [hp]
    simp only [Bool.false_and, Bool.false_eq_true, if_false]
    unfold mobdev_switch
    rw [if_neg hc1, if_neg hc2, if_neg hc3, if_neg hc4, if_neg hc5]
  · simp [readsUserMem, hp]

/-- Witness for C6 at the concrete out-of-range command 42. -/
theorem unknown_command_witness :
    sys_mobdev_control 42 UserArg.null [] 0 false (fun _ => 0) =
      { ret := -EINVAL, net := [], rtnl_depth := 0, notif := false,
        helperCalls := [] } ∧
    readsUserMem 42 UserArg.null = false :=
  unknown_command_spec 42 UserArg.null [] 0 false (fun _ => 0) (by decide)

/- ------------------------------------------------------------------
   C8: marshaling failure aborts the dispatch
   ------------------------------------------------------------------ -/

/-- C8. When a payload-carrying command is dispatched with a non-null
argument pointer whose record cannot be copied, the dispatcher returns
-EFAULT before any side effect: no helper invocation, no registry,
lock-depth or notification change. -/
theorem boundary_fault_spec (cmd : Nat) (net : List net_device) (L : Nat)
    (notif : Bool) (helper : Argv → Int) (h : payloadCmd cmd = true) :
    sys_mobdev_control cmd UserArg.fault net L notif helper =
      { ret := -EFAULT, net := net, rtnl_depth := L, notif := notif,
        helperCalls := [] } := by
  simp [sys_mobdev_control, h, UserArg.isNull, copy_from_user]

/-- Witness for C8 at the concrete Tethering command. -/
theorem boundary_fault_witness :
    sys_mobdev_control MOBDEV_TETHERING UserArg.fault [] 0 false
        (fun _ => 0) =
      { ret := -EFAULT, net := [], rtnl_depth := 0, notif := false,
        helperCalls := [] } :=
  boundary_fault_spec MOBDEV_TETHERING [] 0 false (fun _ => 0) (by decide)

/- ------------------------------------------------------------------
   C9: a null argument pointer dispatches a zero-valued record
   ------------------------------------------------------------------ -/

/-- C9. Every payload-carrying command invoked with a null argument
pointer proceeds through the switch with the memset-to-zero record,
and is indistinguishable from the same command invoked with an
explicitly supplied all-zero record. -/
theorem null_argument_zero_record_spec (cmd : Nat) (net : List net_device)
    (L : Nat) (notif : Bool) (helper : Argv → Int)
    (h : payloadCmd cmd = true) :
    sys_mobdev_control cmd UserArg.null net L notif helper =
      mobdev_switch cmd zeroArgs net L notif helper ∧
    sys_mobdev_control cmd UserArg.null net L notif helper =
      sys_mobdev_control cmd (UserArg.valid zeroArgs) net L notif helper := by
  have h1 : sys_mobdev_control cmd UserArg.null net L notif helper =
      mobdev_switch cmd zeroArgs net L notif helper := by
    simp [sys_mobdev_control, UserArg.isNull]
  exact ⟨h1, h1.trans (sys_valid_eq_switch cmd zeroArgs net L notif helper h).symm⟩

/-- Witness for C9 at the concrete Notifications command. -/
theorem null_argument_zero_record_witness :
    sys_mobdev_control MOBDEV_NOTIFICATIONS UserArg.null [] 0 false
        (fun _ => 0) =
      mobdev_switch MOBDEV_NOTIFICATIONS zeroArgs [] 0 false (fun _ => 0) ∧
    sys_mobdev_control MOBDEV_NOTIFICATIONS UserArg.null [] 0 false
        (fun _ => 0) =
      sys_mobdev_control MOBDEV_NOTIFICATIONS (UserArg.valid zeroArgs) [] 0
        false (fun _ => 0) :=
  null_argument_zero_record_spec MOBDEV_NOTIFICATIONS [] 0 false
    (fun _ => 0) (by decide)
